import Mathlib

/-
Verification of the objectlock-tools repository
(src/s3-create-locked-objects-parallel.py) against its specification.

The script is shallowly embedded: Python strings become `List Char`,
fallible operations become `Option` or `Except`, and the sources of
randomness (random.randint, random.choices) and the interactive input
stream become explicit parameters.  Python machine behaviour that the
script relies on (str.isdigit, int(), datetime.strptime, negative list
indexing, str(i)) is embedded faithfully on the character fragment the
script exercises.
-/

/-! ## Decimal rendering of integers: model of Python str(i)

Python's str(i) for a non-negative integer prints the decimal digits,
most significant first, with no sign and no padding; "0" for zero.
`natStrAux` carries a fuel argument so that the recursion is structural
(the fuel is always sufficient since n / 10 < n). -/

def natStrAux : Nat → Nat → List Char
  | 0, _ => []
  | f + 1, n =>
    if n < 10 then [Nat.digitChar n]
    else natStrAux f (n / 10) ++ [Nat.digitChar (n % 10)]

/-- Model of Python str(i) for a non-negative integer i. -/
def natStr (n : Nat) : List Char :=
  natStrAux (n + 1) n

/-- Decimal value of a digit string, accumulating from the left;
models int() acting on a string of ASCII decimal digits. -/
def digitsValFrom (a : Nat) (ds : List Char) : Nat :=
  ds.foldl (fun x c => 10 * x + (c.toNat - 48)) a

/-- Decimal value of a digit string. -/
def digitsVal (ds : List Char) : Nat :=
  digitsValFrom 0 ds

theorem digitsValFrom_append (a : Nat) (xs ys : List Char) :
    digitsValFrom a (xs ++ ys) = digitsValFrom (digitsValFrom a xs) ys := by
  simp [digitsValFrom, List.foldl_append]

theorem digitChar_toNat (d : Nat) (h : d < 10) :
    (Nat.digitChar d).toNat - 48 = d := by
  interval_cases d <;> rfl

theorem digitsValFrom_natStrAux (fuel : Nat) :
    ∀ n a, n < fuel →
      digitsValFrom a (natStrAux fuel n) =
        a * 10 ^ (natStrAux fuel n).length + n := by
  induction fuel with
  | zero => intro n a h; omega
  | succ f ih =>
    intro n a h
    by_cases h10 : n < 10
    · have hbody : natStrAux (f + 1) n = [Nat.digitChar n] := by
        simp [natStrAux, h10]
      rw [hbody]
      simp [digitsValFrom, digitChar_toNat n h10]
      omega
    · have hbody : natStrAux (f + 1) n =
          natStrAux f (n / 10) ++ [Nat.digitChar (n % 10)] := by
        simp [natStrAux, h10]
      have hd : n / 10 < n := Nat.div_lt_self (by omega) (by omega)
      rw [hbody, digitsValFrom_append]
      rw [ih (n / 10) a (by omega)]
      have hmod : n % 10 < 10 := Nat.mod_lt _ (by omega)
      simp [digitsValFrom, digitChar_toNat (n % 10) hmod, List.length_append]
      have hdm := Nat.div_add_mod n 10
      ring_nf
      omega

theorem digitsVal_natStr (n : Nat) : digitsVal (natStr n) = n := by
  have := digitsValFrom_natStrAux (n + 1) n 0 (by omega)
  simpa [natStr, digitsVal] using this

theorem natStr_injective : Function.Injective natStr := by
  intro m n h
  have hm := digitsVal_natStr m
  have hn := digitsVal_natStr n
  rw [h] at hm
  omega

/-! ## validate_date: model of datetime.strptime(s, percent-Y-m-dTH:M:SZ)

CPython's _strptime compiles the format into one regular expression
over str (re.IGNORECASE, no re.ASCII) and requires it to match the
whole input.  The per-directive patterns are
  %Y -> \d\d\d\d
  %m -> 1[0-2]|0[1-9]|[1-9]
  %d -> 3[01]|[12]\d|0[1-9]|[1-9]| [1-9]
  %H -> 2[0-3]|[0-1]\d|\d
  %M -> [0-5]\d|\d
  %S -> 6[0-1]|[0-5]\d|\d
where \d matches every Unicode decimal digit (category Nd) while the
bracketed classes match the listed ASCII digits only, %d also has a
space-padded single-digit alternative, and the literal letters match
case-insensitively, so T/t and Z/z are both accepted.  The Nd class is
embedded on the fragment relevant here: the ASCII digits plus two
exemplar Nd blocks, the Arabic-Indic digits (U+0660..U+0669) and the
fullwidth digits (U+FF10..U+FF19).  Each numeric field is followed by
a non-digit, non-space literal, so backtracking regex matching is
equivalent to taking the maximal digit run (or, for %d after a space,
the space-digit pair) and testing it against the directive's language
of exact strings, which is what the parser below does.  The matched
groups are converted with int(), which strips the padding space and
reads every Nd digit by its decimal value, and the values are given to
datetime(), which rejects year 0, days beyond the month length and
seconds above 59; a failure anywhere makes validate_date return False. -/

/-- The Unicode decimal-digit class Nd matched by a backslash-d in a
str pattern, embedded on the fragment exercised here: ASCII digits,
Arabic-Indic digits and fullwidth digits. -/
def pyCharNd (c : Char) : Bool :=
  c.isDigit || (1632 ≤ c.toNat && c.toNat ≤ 1641) ||
    (65296 ≤ c.toNat && c.toNat ≤ 65305)

/-- The decimal value of an Nd digit of the embedded fragment. -/
def ndVal (c : Char) : Nat :=
  if c.isDigit then c.toNat - 48
  else if 1632 ≤ c.toNat && c.toNat ≤ 1641 then c.toNat - 1632
  else c.toNat - 65296

/-- The value int() computes for a string of Nd digits. -/
def ndStrVal (ds : List Char) : Nat :=
  ds.foldl (fun a c => 10 * a + ndVal c) 0

/-- Model of int() on a matched group: the padding space of a
space-padded day is stripped, then the Nd digits are read. -/
def intOfMatch (ds : List Char) : Nat :=
  ndStrVal (ds.dropWhile (fun c => c == ' '))

/-- An ASCII digit whose value lies in [lo, hi]: the bracketed digit
classes of the patterns above. -/
def asciiDigitIn (lo hi : Nat) (c : Char) : Bool :=
  c.isDigit && decide (lo ≤ c.toNat - 48) && decide (c.toNat - 48 ≤ hi)

/-- The exact-string language of the %m pattern 1[0-2]|0[1-9]|[1-9]. -/
def monthLang : List Char → Bool
  | [c] => asciiDigitIn 1 9 c
  | [c1, c2] => (c1 = '1' && asciiDigitIn 0 2 c2) ||
      (c1 = '0' && asciiDigitIn 1 9 c2)
  | _ => false

/-- The exact-string language of the %d pattern
3[01]|[12]d|0[1-9]|[1-9]|space[1-9], with d any Nd digit. -/
def dayLang : List Char → Bool
  | [c] => asciiDigitIn 1 9 c
  | [c1, c2] =>
      (c1 = ' ' && asciiDigitIn 1 9 c2) ||
      (c1 = '3' && asciiDigitIn 0 1 c2) ||
      ((c1 = '1' || c1 = '2') && pyCharNd c2) ||
      (c1 = '0' && asciiDigitIn 1 9 c2)
  | _ => false

/-- The exact-string language of the %H pattern 2[0-3]|[0-1]d|d. -/
def hourLang : List Char → Bool
  | [c] => pyCharNd c
  | [c1, c2] => (c1 = '2' && asciiDigitIn 0 3 c2) ||
      ((c1 = '0' || c1 = '1') && pyCharNd c2)
  | _ => false

/-- The exact-string language of the %M pattern [0-5]d|d. -/
def minuteLang : List Char → Bool
  | [c] => pyCharNd c
  | [c1, c2] => asciiDigitIn 0 5 c1 && pyCharNd c2
  | _ => false

/-- The exact-string language of the %S pattern 6[0-1]|[0-5]d|d. -/
def secondLang : List Char → Bool
  | [c] => pyCharNd c
  | [c1, c2] => (c1 = '6' && asciiDigitIn 0 1 c2) ||
      (asciiDigitIn 0 5 c1 && pyCharNd c2)
  | _ => false

/-- The exact-string language of the %Y pattern dddd: four Nd digits. -/
def yearLang (ds : List Char) : Bool :=
  decide (ds.length = 4) && ds.all pyCharNd

/-- The maximal run of Nd digits at the head of the string. -/
def ndSpan : List Char → List Char × List Char
  | [] => ([], [])
  | c :: cs =>
    if pyCharNd c then (c :: (ndSpan cs).1, (ndSpan cs).2)
    else ([], c :: cs)

/-- One numeric directive whose alternatives are all digit strings
(%Y, %m, %H, %M, %S): the maximal digit run must lie in the
directive's language. -/
def parseField (lang : List Char → Bool) (s : List Char) :
    Option (List Char × List Char) :=
  if lang (ndSpan s).1 then some ((ndSpan s).1, (ndSpan s).2) else none

/-- The %d directive: after a leading space only the space-padded
alternative can match; otherwise the maximal digit run must lie in
the day language. -/
def parseDay (s : List Char) : Option (List Char × List Char) :=
  match s with
  | [] => none
  | c0 :: rest =>
    if c0 = ' ' then
      match rest with
      | c :: r => if dayLang [' ', c] then some ([' ', c], r) else none
      | [] => none
    else
      if dayLang (ndSpan (c0 :: rest)).1 then
        some ((ndSpan (c0 :: rest)).1, (ndSpan (c0 :: rest)).2)
      else none

/-- A literal character of the format (the separators - and :). -/
def expectChar (c : Char) : List Char → Option (List Char)
  | x :: r => if x = c then some r else none
  | [] => none

/-- A literal letter of the format, matched case-insensitively
(re.IGNORECASE): either of the two given characters is accepted. -/
def expectTwo (a b : Char) : List Char → Option (List Char)
  | x :: r => if x = a ∨ x = b then some r else none
  | [] => none

/-- The full-string regex match of _strptime for the fixed format
followed by the int() conversion of each matched group, returning
(year, month, day, hour, minute, second). -/
def strptimeFields (s : List Char) : Option (Nat × Nat × Nat × Nat × Nat × Nat) :=
  (parseField yearLang s).bind fun py =>
  (expectChar '-' py.2).bind fun s2 =>
  (parseField monthLang s2).bind fun pm =>
  (expectChar '-' pm.2).bind fun s4 =>
  (parseDay s4).bind fun pd =>
  (expectTwo 'T' 't' pd.2).bind fun s6 =>
  (parseField hourLang s6).bind fun ph =>
  (expectChar ':' ph.2).bind fun s8 =>
  (parseField minuteLang s8).bind fun pmi =>
  (expectChar ':' pmi.2).bind fun s10 =>
  (parseField secondLang s10).bind fun ps =>
  (expectTwo 'Z' 'z' ps.2).bind fun s12 =>
  match s12 with
  | [] => some (intOfMatch py.1, intOfMatch pm.1, intOfMatch pd.1,
      intOfMatch ph.1, intOfMatch pmi.1, intOfMatch ps.1)
  | _ => none

/-- Python's leap-year rule (datetime module). -/
def isLeapYear (y : Nat) : Bool :=
  y % 4 = 0 && (y % 100 ≠ 0 || y % 400 = 0)

/-- Number of days of a month, as checked by the datetime constructor. -/
def daysInMonth (y m : Nat) : Nat :=
  if m = 2 then (if isLeapYear y then 29 else 28)
  else if m = 4 ∨ m = 6 ∨ m = 9 ∨ m = 11 then 30 else 31

/-- The range checks done by the datetime() constructor on the values
produced by the regex match. -/
def datetimeValid (y mo da ho mi se : Nat) : Bool :=
  decide (1 ≤ y ∧ y ≤ 9999 ∧ 1 ≤ mo ∧ mo ≤ 12 ∧ 1 ≤ da ∧
    da ≤ daysInMonth y mo ∧ ho ≤ 23 ∧ mi ≤ 59 ∧ se ≤ 59)

/-- Embedding of validate_date (src lines 63-68): true iff
datetime.strptime(date_text, the fixed format) does not raise. -/
def validate_date (s : List Char) : Bool :=
  match strptimeFields s with
  | some (y, mo, da, ho, mi, se) => datetimeValid y mo da ho mi se
  | none => false

/-- Modelled from the spec: the strict pattern YYYY-MM-DDTHH:MM:SSZ of
claim C1 - exactly twenty characters, four-digit year, two-digit
zero-padded month, day, hour, minute and second, with the literal
characters -, -, T, :, : and Z at fixed positions. -/
def specStrictPattern (s : List Char) : Bool :=
  match s with
  | [y1, y2, y3, y4, a1, m1, m2, a2, d1, d2, tc,
     h1, h2, b1, n1, n2, b2, e1, e2, zc] =>
    y1.isDigit && y2.isDigit && y3.isDigit && y4.isDigit &&
    a1 == '-' && m1.isDigit && m2.isDigit && a2 == '-' &&
    d1.isDigit && d2.isDigit && tc == 'T' &&
    h1.isDigit && h2.isDigit && b1 == ':' &&
    n1.isDigit && n2.isDigit && b2 == ':' &&
    e1.isDigit && e2.isDigit && zc == 'Z'
  | _ => false

/-- The shape of the retention strings validate_date really accepts:
the string splits into a year in the %Y language, month, day, hour,
minute and second fields in the respective directive languages
(unpadded one-digit forms, Unicode digits where the directive has a
backslash-d, and the space-padded day included), separated by the
literals -, -, T or t, :, :, closed by Z or z, with the int() values
of the fields in the ranges enforced by the datetime constructor. -/
def LenientForm (s : List Char) : Prop :=
  ∃ ys mos das hos mis ses : List Char, ∃ t z : Char,
    s = ys ++ '-' :: mos ++ '-' :: das ++ t :: hos ++
        ':' :: mis ++ ':' :: ses ++ [z] ∧
    yearLang ys = true ∧ monthLang mos = true ∧ dayLang das = true ∧
    hourLang hos = true ∧ minuteLang mis = true ∧ secondLang ses = true ∧
    (t = 'T' ∨ t = 't') ∧ (z = 'Z' ∨ z = 'z') ∧
    1 ≤ intOfMatch ys ∧ intOfMatch ys ≤ 9999 ∧
    1 ≤ intOfMatch mos ∧ intOfMatch mos ≤ 12 ∧
    1 ≤ intOfMatch das ∧
    intOfMatch das ≤ daysInMonth (intOfMatch ys) (intOfMatch mos) ∧
    intOfMatch hos ≤ 23 ∧ intOfMatch mis ≤ 59 ∧ intOfMatch ses ≤ 59

theorem ndSpan_append (s : List Char) :
    (ndSpan s).1 ++ (ndSpan s).2 = s := by
  induction s with
  | nil => rfl
  | cons c cs ih =>
    by_cases h : pyCharNd c
    · simp [ndSpan, h, ih]
    · simp [ndSpan, h]

theorem parseField_sound (lang : List Char → Bool) (s ds r : List Char)
    (h : parseField lang s = some (ds, r)) :
    s = ds ++ r ∧ lang ds = true := by
  unfold parseField at h
  by_cases hl : lang (ndSpan s).1 = true
  · simp [hl] at h
    have h1 : (ndSpan s).1 = ds := by rw [h]
    have h2 : (ndSpan s).2 = r := by rw [h]
    exact ⟨by rw [← h1, ← h2, ndSpan_append], h1 ▸ hl⟩
  · simp [hl] at h

theorem parseDay_sound (s ds r : List Char)
    (h : parseDay s = some (ds, r)) :
    s = ds ++ r ∧ dayLang ds = true := by
  match s with
  | [] => simp [parseDay] at h
  | c0 :: rest =>
    by_cases hc : c0 = ' '
    · subst hc
      match rest with
      | [] => simp [parseDay] at h
      | c :: rr =>
        by_cases hl : dayLang [' ', c] = true
        · simp [parseDay, hl] at h
          exact ⟨by rw [← h.1, ← h.2]; rfl, h.1 ▸ hl⟩
        · simp [parseDay, hl] at h
    · by_cases hl : dayLang (ndSpan (c0 :: rest)).1 = true
      · simp [parseDay, hc, hl] at h
        have h1 : (ndSpan (c0 :: rest)).1 = ds := by rw [h]
        have h2 : (ndSpan (c0 :: rest)).2 = r := by rw [h]
        exact ⟨by rw [← h1, ← h2, ndSpan_append], h1 ▸ hl⟩
      · simp [parseDay, hc, hl] at h

theorem expectChar_sound (c : Char) (s r : List Char)
    (h : expectChar c s = some r) : s = c :: r := by
  match s with
  | [] => simp [expectChar] at h
  | x :: xs =>
    by_cases hx : x = c
    · simp [expectChar, hx] at h
      rw [hx, h]
    · simp [expectChar, hx] at h

theorem expectTwo_sound (a b : Char) (s r : List Char)
    (h : expectTwo a b s = some r) :
    ∃ x, s = x :: r ∧ (x = a ∨ x = b) := by
  match s with
  | [] => simp [expectTwo] at h
  | x :: xs =>
    by_cases hx : x = a ∨ x = b
    · simp [expectTwo, hx] at h
      exact ⟨x, by rw [h], hx⟩
    · simp [expectTwo, hx] at h

theorem strptimeFields_sound (s : List Char)
    (y mo da ho mi se : Nat)
    (h : strptimeFields s = some (y, mo, da, ho, mi, se)) :
    ∃ ys mos das hos mis ses : List Char, ∃ t z : Char,
      s = ys ++ '-' :: mos ++ '-' :: das ++ t :: hos ++
          ':' :: mis ++ ':' :: ses ++ [z] ∧
      yearLang ys = true ∧ y = intOfMatch ys ∧
      monthLang mos = true ∧ mo = intOfMatch mos ∧
      dayLang das = true ∧ da = intOfMatch das ∧
      hourLang hos = true ∧ ho = intOfMatch hos ∧
      minuteLang mis = true ∧ mi = intOfMatch mis ∧
      secondLang ses = true ∧ se = intOfMatch ses ∧
      (t = 'T' ∨ t = 't') ∧ (z = 'Z' ∨ z = 'z') := by
  unfold strptimeFields at h
  rw [Option.bind_eq_some] at h
  obtain ⟨⟨ys, s1⟩, hy, h⟩ := h
  rw [Option.bind_eq_some] at h
  obtain ⟨s2, hd1, h⟩ := h
  rw [Option.bind_eq_some] at h
  obtain ⟨⟨mos, s3⟩, hmo, h⟩ := h
  rw [Option.bind_eq_some] at h
  obtain ⟨s4, hd2, h⟩ := h
  rw [Option.bind_eq_some] at h
  obtain ⟨⟨das, s5⟩, hda, h⟩ := h
  rw [Option.bind_eq_some] at h
  obtain ⟨s6, ht, h⟩ := h
  rw [Option.bind_eq_some] at h
  obtain ⟨⟨hos, s7⟩, hho, h⟩ := h
  rw [Option.bind_eq_some] at h
  obtain ⟨s8, hc1, h⟩ := h
  rw [Option.bind_eq_some] at h
  obtain ⟨⟨mis, s9⟩, hmi, h⟩ := h
  rw [Option.bind_eq_some] at h
  obtain ⟨s10, hc2, h⟩ := h
  rw [Option.bind_eq_some] at h
  obtain ⟨⟨ses, s11⟩, hse, h⟩ := h
  rw [Option.bind_eq_some] at h
  obtain ⟨s12, hz, h⟩ := h
  match s12, h with
  | [], h =>
    simp only [Option.some_inj] at h
    obtain ⟨hy', hmo', hda', hho', hmi', hse'⟩ :
        intOfMatch ys = y ∧ intOfMatch mos = mo ∧ intOfMatch das = da ∧
          intOfMatch hos = ho ∧ intOfMatch mis = mi ∧
          intOfMatch ses = se := by
      have := h
      simp at this
      exact ⟨this.1, this.2.1, this.2.2.1, this.2.2.2.1,
        this.2.2.2.2.1, this.2.2.2.2.2⟩
    obtain ⟨hs, hylang⟩ := parseField_sound yearLang s ys s1 hy
    obtain ⟨hs2, hmlang⟩ := parseField_sound monthLang s2 mos s3 hmo
    obtain ⟨hs4, hdlang⟩ := parseDay_sound s4 das s5 hda
    obtain ⟨hs6, hhlang⟩ := parseField_sound hourLang s6 hos s7 hho
    obtain ⟨hs8, hmilang⟩ := parseField_sound minuteLang s8 mis s9 hmi
    obtain ⟨hs10, hselang⟩ := parseField_sound secondLang s10 ses s11 hse
    have hd1' := expectChar_sound '-' s1 s2 hd1
    have hd2' := expectChar_sound '-' s3 s4 hd2
    obtain ⟨t, hts, htv⟩ := expectTwo_sound 'T' 't' s5 s6 ht
    have hc1' := expectChar_sound ':' s7 s8 hc1
    have hc2' := expectChar_sound ':' s9 s10 hc2
    obtain ⟨z, hzs, hzv⟩ := expectTwo_sound 'Z' 'z' s11 [] hz
    refine ⟨ys, mos, das, hos, mis, ses, t, z, ?_, hylang, hy'.symm,
      hmlang, hmo'.symm, hdlang, hda'.symm, hhlang, hho'.symm,
      hmilang, hmi'.symm, hselang, hse'.symm, htv, hzv⟩
    rw [hs, hd1', hs2, hd2', hs4, hts, hs6, hc1', hs8, hc2', hs10, hzs]
    simp

/-- C1: corrected. The parameter collector does not enforce the exact
zero-padded pattern YYYY-MM-DDTHH:MM:SSZ: strptime also accepts
unpadded one-digit fields, a space-padded day, Unicode decimal digits
wherever the compiled pattern has a backslash-d, and lower-case t/z.
Amended statement: every retention string accepted by validate_date
splits into a year, month, day, hour, minute and second field in the
exact languages of the compiled directive regexes, separated by the
literals -, -, T (or t), :, :, and closed by Z (or z), with the int()
values of the fields satisfying the datetime constructor's checks
(year 1..9999, month 1..12, day within the month's length, hour at
most 23, minute and second at most 59); every string not of that
lenient form is rejected and the user is re-prompted. -/
theorem C1_validate_date_accepts_only_lenient_form (s : List Char)
    (h : validate_date s = true) : LenientForm s := by
  unfold validate_date at h
  cases hf : strptimeFields s with
  | none => rw [hf] at h; simp at h
  | some q =>
    obtain ⟨y, mo, da, ho, mi, se⟩ := q
    rw [hf] at h
    simp only [] at h
    unfold datetimeValid at h
    have hv := of_decide_eq_true h
    obtain ⟨hy1, hy2, hmo1, hmo2, hda1, hda2, hho, hmi, hse⟩ := hv
    obtain ⟨ys, mos, das, hos, mis, ses, t, z, hdecomp, hylang, hyval,
      hmlang, hmval, hdlang, hdval, hhlang, hhval, hmilang, hmival,
      hselang, hseval, htv, hzv⟩ :=
      strptimeFields_sound s y mo da ho mi se hf
    exact ⟨ys, mos, das, hos, mis, ses, t, z, hdecomp, hylang, hmlang,
      hdlang, hhlang, hmilang, hselang, htv, hzv,
      hyval ▸ hy1, hyval ▸ hy2, hmval ▸ hmo1, hmval ▸ hmo2,
      hdval ▸ hda1, by rw [← hdval, ← hyval, ← hmval]; exact hda2,
      hhval ▸ hho, hmival ▸ hmi, hseval ▸ hse⟩

/-- C1 witness: three accepted retention strings with the lenient
form: the canonical zero-padded one, one with a space-padded day, and
one whose year is written in Arabic-Indic digits. -/
theorem C1_witness :
    (validate_date ("2024-12-31T00:00:00Z".toList) = true ∧
      LenientForm ("2024-12-31T00:00:00Z".toList)) ∧
    (validate_date ("2024-12- 3T00:00:00Z".toList) = true ∧
      LenientForm ("2024-12- 3T00:00:00Z".toList)) ∧
    (validate_date ("٢٠٢٤-12-31T00:00:00Z".toList) = true ∧
      LenientForm ("٢٠٢٤-12-31T00:00:00Z".toList)) :=
  ⟨⟨by decide, C1_validate_date_accepts_only_lenient_form
      ("2024-12-31T00:00:00Z".toList) (by decide)⟩,
   ⟨by decide, C1_validate_date_accepts_only_lenient_form
      ("2024-12- 3T00:00:00Z".toList) (by decide)⟩,
   ⟨by decide, C1_validate_date_accepts_only_lenient_form
      ("٢٠٢٤-12-31T00:00:00Z".toList) (by decide)⟩⟩

/-- C1 counterexample: the unpadded string 2024-1-1T0:0:0Z is accepted
by validate_date although it does not match the strict twenty-character
pattern YYYY-MM-DDTHH:MM:SSZ, so not every accepted retention string
matches that exact pattern. -/
theorem C1_counterexample :
    validate_date ("2024-1-1T0:0:0Z".toList) = true ∧
      specStrictPattern ("2024-1-1T0:0:0Z".toList) = false := by
  decide

/-! ## generate_readable_text (src lines 70-83)

random.choices(words, k=size_kb*200) is modelled by passing the drawn
word list explicitly; the function joins the words with single spaces
and truncates the result to size_kb * 1024 characters. -/

/-- The fixed vocabulary of generate_readable_text, in source order,
duplicates included. -/
def vocabulary : List (List Char) :=
  ["Lorem".toList, "ipsum".toList, "dolor".toList, "sit".toList,
   "amet".toList, "consectetur".toList, "adipiscing".toList,
   "elit".toList, "sed".toList, "do".toList, "eiusmod".toList,
   "tempor".toList, "incididunt".toList, "ut".toList, "labore".toList,
   "et".toList, "dolore".toList, "magna".toList, "aliqua".toList,
   "ut".toList, "enim".toList, "ad".toList, "minim".toList,
   "veniam".toList, "quis".toList, "nostrud".toList,
   "exercitation".toList, "ullamco".toList, "laboris".toList,
   "nisi".toList, "ut".toList, "aliquip".toList, "ex".toList,
   "ea".toList, "commodo".toList, "consequat".toList, "duis".toList,
   "aute".toList, "irure".toList, "dolor".toList, "in".toList,
   "reprehenderit".toList, "in".toList, "voluptate".toList,
   "velit".toList, "esse".toList, "cillum".toList, "dolore".toList,
   "eu".toList, "fugiat".toList, "nulla".toList, "pariatur".toList,
   "excepteur".toList, "sint".toList, "occaecat".toList,
   "cupidatat".toList, "non".toList, "proident".toList, "sunt".toList,
   "in".toList, "culpa".toList, "qui".toList, "officia".toList,
   "deserunt".toList, "mollit".toList, "anim".toList, "id".toList,
   "est".toList, "laborum".toList]

/-- Embedding of generate_readable_text: ws is the list of words that
random.choices returned; the source joins them with single spaces and
slices the first size_kb * 1024 characters. -/
def generate_readable_text (size_kb : Nat) (ws : List (List Char)) : List Char :=
  (List.intercalate [' '] ws).take (size_kb * 1024)

/-- C2: confirmed. For every requested size S in KiB (S at least 1),
with ws the S*200 vocabulary words drawn by random.choices, the
returned payload has at most S*1024 characters, and exactly S*1024
whenever the joined pre-truncation text has at least S*1024. -/
theorem C2_generate_readable_text_size (S : Nat) (ws : List (List Char))
    (h1 : 1 ≤ S) (h2 : ws.length = S * 200) (h3 : ∀ w ∈ ws, w ∈ vocabulary) :
    (generate_readable_text S ws).length ≤ S * 1024 ∧
      (S * 1024 ≤ (List.intercalate [' '] ws).length →
        (generate_readable_text S ws).length = S * 1024) := by
  unfold generate_readable_text
  rw [List.length_take]
  exact ⟨Nat.min_le_left _ _, fun h => Nat.min_eq_left h⟩

set_option maxRecDepth 40000 in
/-- C2 witness: size 1 KiB with 200 copies of the word Lorem drawn;
the joined text has 1199 characters, so the payload has exactly 1024. -/
theorem C2_witness :
    (1 ≤ 1 ∧ (List.replicate 200 ("Lorem".toList)).length = 1 * 200 ∧
      ∀ w ∈ List.replicate 200 ("Lorem".toList), w ∈ vocabulary) ∧
    ((generate_readable_text 1 (List.replicate 200 ("Lorem".toList))).length
        ≤ 1 * 1024 ∧
      (1 * 1024 ≤ (List.intercalate [' ']
          (List.replicate 200 ("Lorem".toList))).length →
        (generate_readable_text 1
          (List.replicate 200 ("Lorem".toList))).length = 1 * 1024)) :=
  ⟨⟨by decide, by decide, by decide⟩,
    C2_generate_readable_text_size 1 (List.replicate 200 ("Lorem".toList))
      (by decide) (by decide) (by decide)⟩

/-! ## Object keys of the upload dispatch loop (src lines 169-173)

for i in range(start_index, start_index + num_objects):
    object_key = prefix + str(i) + ".txt" -/

/-- Embedding of one object key: prefix + str(i) + ".txt". -/
def objectKey (pref : List Char) (i : Nat) : List Char :=
  pref ++ natStr i ++ ".txt".toList

/-- Embedding of the keys submitted by the dispatch loop, in
submission order: one key per index of range(start, start + count). -/
def uploadKeys (pref : List Char) (start count : Nat) : List (List Char) :=
  (List.range' start count).map (objectKey pref)

theorem objectKey_injective (pref : List Char) :
    Function.Injective (objectKey pref) := by
  intro i j h
  unfold objectKey at h
  have h2 := List.append_cancel_right h
  have h3 := List.append_cancel_left h2
  exact natStr_injective h3

/-- C3: confirmed. The keys submitted for a run with prefix P, start N
and count C are exactly the strings P + str(i) + ".txt" for
N <= i < N + C, and they are pairwise distinct. -/
theorem C3_upload_keys_exact (pref : List Char) (start count : Nat) :
    (∀ k, k ∈ uploadKeys pref start count ↔
      ∃ i, start ≤ i ∧ i < start + count ∧ k = objectKey pref i) ∧
    (uploadKeys pref start count).Nodup := by
  constructor
  · intro k
    unfold uploadKeys
    rw [List.mem_map]
    constructor
    · rintro ⟨i, hi, rfl⟩
      rw [List.mem_range'] at hi
      obtain ⟨j, hj, rfl⟩ := hi
      exact ⟨start + 1 * j, by omega, by omega, rfl⟩
    · rintro ⟨i, hi1, hi2, rfl⟩
      exact ⟨i, List.mem_range'.mpr ⟨i - start, by omega, by omega⟩, rfl⟩
  · exact (List.nodup_range' start count 1 (by omega)).map
      (objectKey_injective pref)

/-! ## Bucket discovery (src lines 98-112)

For each bucket the script calls get_object_lock_configuration inside
try/except.  The remote outcome of that call is modelled per bucket:
either the request succeeded, with a flag saying whether the response
dictionary contains the ObjectLockConfiguration entry, or it raised a
ClientError with some error code.  raise aborts the loop, so the fold
below stops at the first fatal error. -/

inductive LockQueryResult where
  | ok (hasConfig : Bool)
  | clientError (code : List Char)

/-- The error code that the except branch swallows. -/
def notFoundCode : List Char :=
  "ObjectLockConfigurationNotFoundError".toList

/-- Whether a query outcome makes the discovery loop re-raise. -/
def isFatal : LockQueryResult → Bool
  | .clientError code => decide (code ≠ notFoundCode)
  | .ok _ => false

/-- Whether a query outcome adds the bucket to the result list. -/
def hasLockConfig : LockQueryResult → Bool
  | .ok b => b
  | .clientError _ => false

/-- Embedding of the discovery loop building buckets_with_object_lock:
given the listed buckets with their query outcomes, returns the names
appended to the list, or the code of the first re-raised error. -/
def buckets_with_object_lock :
    List (List Char × LockQueryResult) → Except (List Char) (List (List Char))
  | [] => .ok []
  | (name, res) :: rest =>
    match res with
    | .ok true =>
      match buckets_with_object_lock rest with
      | .ok l => .ok (name :: l)
      | .error e => .error e
    | .ok false => buckets_with_object_lock rest
    | .clientError code =>
      if code = notFoundCode then buckets_with_object_lock rest
      else .error code

/-- C4: confirmed. When no query fails fatally, discovery returns
exactly the buckets whose query succeeded with an
ObjectLockConfiguration entry, in listing order, and a bucket failing
with ObjectLockConfigurationNotFoundError is excluded without
aborting; when some query fails with another error code, discovery
aborts with that error. -/
theorem C4_bucket_discovery (bs : List (List Char × LockQueryResult)) :
    ((∀ p ∈ bs, isFatal p.2 = false) →
      buckets_with_object_lock bs =
        .ok (bs.filterMap fun p => if hasLockConfig p.2 then some p.1 else none)) ∧
    (∀ pre post : List (List Char × LockQueryResult),
      ∀ name code, bs = pre ++ (name, .clientError code) :: post →
        (∀ p ∈ pre, isFatal p.2 = false) → code ≠ notFoundCode →
        buckets_with_object_lock bs = .error code) := by
  constructor
  · induction bs with
    | nil => intro _; rfl
    | cons hd tl ih =>
      intro hall
      obtain ⟨name, res⟩ := hd
      have htl : ∀ p ∈ tl, isFatal p.2 = false :=
        fun p hp => hall p (List.mem_cons_of_mem _ hp)
      have hhd : isFatal res = false := hall (name, res) (List.mem_cons_self _ _)
      match res with
      | .ok true =>
        simp [buckets_with_object_lock, ih htl, List.filterMap_cons,
          hasLockConfig]
      | .ok false =>
        simp [buckets_with_object_lock, ih htl, List.filterMap_cons,
          hasLockConfig]
      | .clientError code =>
        have hco : code = notFoundCode := by
          by_contra hne
          simp [isFatal, hne] at hhd
        simp [buckets_with_object_lock, hco, ih htl, List.filterMap_cons,
          hasLockConfig]
  · intro pre
    induction pre generalizing bs with
    | nil =>
      intro post name code hbs _ hne
      subst hbs
      simp [buckets_with_object_lock, hne]
    | cons hd tl ih =>
      intro post name code hbs hall hne
      subst hbs
      obtain ⟨nm, res⟩ := hd
      have hhd : isFatal res = false := hall (nm, res) (List.mem_cons_self _ _)
      have htl : ∀ p ∈ tl, isFatal p.2 = false :=
        fun p hp => hall p (List.mem_cons_of_mem _ hp)
      have hrec := ih (tl ++ (name, .clientError code) :: post) post name code
        rfl htl hne
      match res with
      | .ok true => simp [buckets_with_object_lock, hrec]
      | .ok false => simp [buckets_with_object_lock, hrec]
      | .clientError c =>
        have hco : c = notFoundCode := by
          by_contra hne2
          simp [isFatal, hne2] at hhd
        simp [buckets_with_object_lock, hco, hrec]

/-- C4 witness: four listed buckets - one enabled, one answering
ObjectLockConfigurationNotFoundError, one whose response has no
configuration entry, one enabled - yield exactly the first and fourth
names; and a run whose second bucket fails with AccessDenied aborts
with AccessDenied. -/
theorem C4_witness :
    (buckets_with_object_lock
      [("b1".toList, .ok true),
       ("b2".toList, .clientError notFoundCode),
       ("b3".toList, .ok false),
       ("b4".toList, .ok true)] = .ok ["b1".toList, "b4".toList]) ∧
    (buckets_with_object_lock
      [("b1".toList, .ok true),
       ("b2".toList, .clientError ("AccessDenied".toList))] =
        .error ("AccessDenied".toList)) :=
  ⟨by
    have h := (C4_bucket_discovery
      [("b1".toList, .ok true),
       ("b2".toList, .clientError notFoundCode),
       ("b3".toList, .ok false),
       ("b4".toList, .ok true)]).1 (by decide)
    rw [h]; rfl,
   (C4_bucket_discovery
      [("b1".toList, .ok true),
       ("b2".toList, .clientError ("AccessDenied".toList))]).2
      [("b1".toList, .ok true)] [] ("b2".toList) ("AccessDenied".toList)
      rfl (by decide) (by decide)⟩

/-! ## create_object and the parallel dispatch (src lines 85-96, 169-173)

put_object is modelled as building a request record; the randint draw
is modelled by reducing an arbitrary natural from the generator stream
into the requested inclusive range, which is the contract of
random.randint(a, b). -/

/-- Model of random.randint(a, b): a uniform draw from the inclusive
range [a, b]; the raw generator output r is folded into the range. -/
def randint (a b r : Nat) : Nat :=
  a + r % (b + 1 - a)

/-- The argument record of one s3.put_object call. -/
structure PutRequest where
  bucket : List Char
  key : List Char
  body : List Char
  objectLockMode : List Char
  objectLockRetainUntilDate : List Char

/-- Embedding of create_object: draws a size between 1 KB and 1024 KB,
generates content of that requested size, and issues put_object with
GOVERNANCE mode and the given retention date.  r is the raw randint
draw and ws the word list drawn by random.choices inside
generate_readable_text. -/
def create_object (bucketName objKey retention : List Char) (r : Nat)
    (ws : List (List Char)) : PutRequest :=
  { bucket := bucketName
    key := objKey
    body := generate_readable_text (randint 1 1024 r) ws
    objectLockMode := "GOVERNANCE".toList
    objectLockRetainUntilDate := retention }

/-- Embedding of the dispatch loop: one create_object call per index
of range(start, start + count), with per-task random draws. -/
def runRequests (bucketName pref retention : List Char) (start count : Nat)
    (draws : Nat → Nat) (wordDraws : Nat → List (List Char)) :
    List PutRequest :=
  (List.range' start count).map fun i =>
    create_object bucketName (objectKey pref i) retention (draws i)
      (wordDraws i)

/-- C5: confirmed. Every upload task of a run carries
ObjectLockMode = GOVERNANCE and the accepted retention string as
ObjectLockRetainUntilDate; the requested payload size in KiB lies in
the inclusive range [1, 1024]; and with prefix test-, start 10 and
count 5, the submitted keys are test-10.txt through test-14.txt. -/
theorem C5_create_object_run (bucketName pref retention : List Char)
    (start count : Nat) (draws : Nat → Nat)
    (wordDraws : Nat → List (List Char)) :
    (∀ req ∈ runRequests bucketName pref retention start count draws wordDraws,
      req.objectLockMode = "GOVERNANCE".toList ∧
      req.objectLockRetainUntilDate = retention) ∧
    (∀ r, 1 ≤ randint 1 1024 r ∧ randint 1 1024 r ≤ 1024) ∧
    ((runRequests bucketName ("test-".toList) retention 10 5 draws
        wordDraws).map PutRequest.key =
      ["test-10.txt".toList, "test-11.txt".toList, "test-12.txt".toList,
       "test-13.txt".toList, "test-14.txt".toList]) := by
  refine ⟨?_, ?_, ?_⟩
  · intro req hreq
    unfold runRequests at hreq
    rw [List.mem_map] at hreq
    obtain ⟨i, _, rfl⟩ := hreq
    exact ⟨rfl, rfl⟩
  · intro r
    unfold randint
    have : r % 1024 < 1024 := Nat.mod_lt _ (by omega)
    omega
  · rfl

/-- C5 witness: a concrete run of two tasks with retention
2024-12-31T00:00:00Z carries GOVERNANCE mode and that date on a
submitted request. -/
theorem C5_witness :
    (create_object ("b".toList) (objectKey ("test-".toList) 10)
        ("2024-12-31T00:00:00Z".toList) 7 [] ∈
      runRequests ("b".toList) ("test-".toList)
        ("2024-12-31T00:00:00Z".toList) 10 2 (fun _ => 7) (fun _ => [])) ∧
    (create_object ("b".toList) (objectKey ("test-".toList) 10)
        ("2024-12-31T00:00:00Z".toList) 7 []).objectLockMode =
      "GOVERNANCE".toList ∧
    (create_object ("b".toList) (objectKey ("test-".toList) 10)
        ("2024-12-31T00:00:00Z".toList) 7 []).objectLockRetainUntilDate =
      "2024-12-31T00:00:00Z".toList :=
  ⟨List.mem_map_of_mem _ (show 10 ∈ List.range' 10 2 by decide),
    ((C5_create_object_run ("b".toList) ("test-".toList)
        ("2024-12-31T00:00:00Z".toList) 10 2 (fun _ => 7) (fun _ => [])).1
      (create_object ("b".toList) (objectKey ("test-".toList) 10)
        ("2024-12-31T00:00:00Z".toList) 7 [])
      (List.mem_map_of_mem _ (show 10 ∈ List.range' 10 2 by decide))).1,
    ((C5_create_object_run ("b".toList) ("test-".toList)
        ("2024-12-31T00:00:00Z".toList) 10 2 (fun _ => 7) (fun _ => [])).1
      (create_object ("b".toList) (objectKey ("test-".toList) 10)
        ("2024-12-31T00:00:00Z".toList) 7 [])
      (List.mem_map_of_mem _ (show 10 ∈ List.range' 10 2 by decide))).2⟩

/-! ## The wait loop and the final summary (src lines 175-178)

for future in as_completed(futures): future.result()
print(f"... locked objects successfully created ...")

future.result() re-raises the first task exception in completion
order; the exception propagates out of the with-block, so the print on
line 178 is only reached when every result was collected successfully.
The outcomes are modelled in completion order. -/

/-- Embedding of the wait loop: stops at the first exception. -/
def collectResults : List (Except (List Char) Unit) → Except (List Char) Unit
  | [] => .ok ()
  | .ok _ :: rest => collectResults rest
  | .error e :: _ => .error e

/-- The one-line summary of line 178, built exactly as the f-string
does (the 39s are the single quotes around prefix and bucket). -/
def summaryLine (numObjects : Nat) (pref bucketName : List Char) : List Char :=
  '\n' :: natStr numObjects ++
  " locked objects successfully created with prefix ".toList ++
  [Char.ofNat 39] ++ pref ++ [Char.ofNat 39] ++
  " in bucket ".toList ++ [Char.ofNat 39] ++ bucketName ++
  [Char.ofNat 39, '.']

/-- Embedding of the end of the run: the lines printed after the wait
loop.  When a result raises, the exception propagates and the summary
print is never reached. -/
def finalOutput (outcomes : List (Except (List Char) Unit)) (numObjects : Nat)
    (pref bucketName : List Char) : List (List Char) :=
  match collectResults outcomes with
  | .ok _ => [summaryLine numObjects pref bucketName]
  | .error _ => []

theorem collectResults_ok (outcomes : List (Except (List Char) Unit))
    (h : ∀ o ∈ outcomes, o = .ok ()) : collectResults outcomes = .ok () := by
  induction outcomes with
  | nil => rfl
  | cons hd tl ih =>
    have hhd := h hd (List.mem_cons_self _ _)
    rw [hhd]
    exact ih fun o ho => h o (List.mem_cons_of_mem _ ho)

theorem collectResults_error (outcomes : List (Except (List Char) Unit))
    (e : List Char) (h : .error e ∈ outcomes) :
    ∃ e', collectResults outcomes = .error e' := by
  induction outcomes with
  | nil => simp at h
  | cons hd tl ih =>
    match hd with
    | .ok u => exact ih (by simpa using h)
    | .error e0 => exact ⟨e0, rfl⟩

/-- C6: corrected. The claim that the run ends with the summary line
both after full success and after an abort on the first task exception
fails: the exception propagates past the print.  Amended statement:
the summary line is printed exactly in the all-success case; when some
task raises, result collection aborts at the first exception in
completion order and the process ends without printing the summary. -/
theorem C6_summary_only_on_success
    (outcomes : List (Except (List Char) Unit)) (numObjects : Nat)
    (pref bucketName : List Char) :
    ((∀ o ∈ outcomes, o = .ok ()) →
      finalOutput outcomes numObjects pref bucketName =
        [summaryLine numObjects pref bucketName]) ∧
    (∀ e, .error e ∈ outcomes →
      finalOutput outcomes numObjects pref bucketName = []) := by
  constructor
  · intro h
    unfold finalOutput
    rw [collectResults_ok outcomes h]
  · intro e he
    obtain ⟨e', he'⟩ := collectResults_error outcomes e he
    unfold finalOutput
    rw [he']

/-- C6 witness: with a single successful task the summary is printed;
with a single failing task nothing is printed after the wait loop. -/
theorem C6_witness :
    (finalOutput [.ok ()] 1 ("p".toList) ("b".toList) =
      [summaryLine 1 ("p".toList) ("b".toList)]) ∧
    (finalOutput [.error ("ConnectionError".toList)] 1 ("p".toList)
      ("b".toList) = []) :=
  ⟨(C6_summary_only_on_success [.ok ()] 1 ("p".toList) ("b".toList)).1
      (fun o ho => List.mem_singleton.mp ho),
   (C6_summary_only_on_success [.error ("ConnectionError".toList)] 1
      ("p".toList) ("b".toList)).2 ("ConnectionError".toList)
      (List.mem_singleton.mpr rfl)⟩

/-- C6 counterexample: when the only task fails, the run prints no
line at all after the wait loop; in particular it does not end with
the summary line, refuting the claim for the first-failure case. -/
theorem C6_counterexample :
    finalOutput [.error ("ConnectionError".toList)] 5 ("test-".toList)
        ("demo".toList) = [] ∧
    summaryLine 5 ("test-".toList) ("demo".toList) ∉
      finalOutput [.error ("ConnectionError".toList)] 5 ("test-".toList)
        ("demo".toList) := by
  constructor
  · rfl
  · intro h
    rw [show finalOutput [.error ("ConnectionError".toList)] 5
        ("test-".toList) ("demo".toList) = [] from rfl] at h
    simp at h

/-! ## Bucket selection (src lines 143-145)

bucket_index = int(input(...)) - 1
bucket_name = buckets_with_object_lock[bucket_index]

Python list subscription: a negative index is shifted by the length,
and the access raises IndexError (modelled as none) exactly when the
shifted index is outside [0, length). -/

/-- Model of Python list subscription l[i] for an int index. -/
def pyIndex (l : List (List Char)) (i : Int) : Option (List Char) :=
  let j := if i < 0 then i + l.length else i
  if 0 ≤ j ∧ j < l.length then l.get? j.toNat else none

/-- Embedding of the bucket selection: the entered number k gives
index k - 1 into the enabled-bucket list. -/
def selectBucket (l : List (List Char)) (k : Int) : Option (List Char) :=
  pyIndex l (k - 1)

/-- C7: corrected. Not every selection outside the listed buckets is a
fatal index error: entries k with 1 - n <= k <= 0 hit Python's
negative indexing and select a bucket.  Amended statement: the
selection is fatal (IndexError, no re-prompt) exactly when the entered
integer k satisfies k > n or k < 1 - n, where n is the number of
object-lock-enabled buckets. -/
theorem C7_selection_fatal_iff (l : List (List Char)) (k : Int) :
    selectBucket l k = none ↔
      ((l.length : Int) < k ∨ k < 1 - (l.length : Int)) := by
  unfold selectBucket pyIndex
  by_cases hneg : k - 1 < 0
  · simp only [hneg, if_true]
    by_cases hin : 0 ≤ k - 1 + (l.length : Int) ∧
        k - 1 + (l.length : Int) < (l.length : Int)
    · have hlt : (k - 1 + (l.length : Int)).toNat < l.length := by omega
      have hget : l.get? (k - 1 + (l.length : Int)).toNat ≠ none := by
        rw [List.get?_eq_getElem?, List.getElem?_eq_getElem hlt]
        simp
      simp only [hin, if_true]
      constructor
      · intro h; exact absurd h hget
      · intro h; omega
    · simp only [hin, if_false]
      constructor
      · intro _; omega
      · intro _; trivial
  · simp only [hneg, if_false]
    by_cases hin : 0 ≤ k - 1 ∧ k - 1 < (l.length : Int)
    · have hlt : (k - 1).toNat < l.length := by omega
      have hget : l.get? (k - 1).toNat ≠ none := by
        rw [List.get?_eq_getElem?, List.getElem?_eq_getElem hlt]
        simp
      simp only [hin, if_true]
      constructor
      · intro h; exact absurd h hget
      · intro h; omega
    · simp only [hin, if_false]
      constructor
      · intro _; omega
      · intro _; trivial

/-- C7 counterexample: with a single object-lock-enabled bucket,
entering 0 is outside the 1-based selection range 1..1 yet does not
raise: Python index -1 selects the bucket, so the program does not
terminate with an index error on every out-of-range selection. -/
theorem C7_counterexample :
    ¬ (1 ≤ (0 : Int) ∧ (0 : Int) ≤ ([("bkt".toList)] : List (List Char)).length) ∧
    selectBucket [("bkt".toList)] 0 = some ("bkt".toList) := by
  decide

/-- C9: confirmed. Selection is 1-based: for 1 <= k <= n the entered
number k selects the k-th bucket of the enabled list, i.e. the element
at 0-based position k - 1, and no error is raised. -/
theorem C9_selection_one_based (l : List (List Char)) (k : Int)
    (h1 : 1 ≤ k) (h2 : k ≤ (l.length : Int)) :
    selectBucket l k = l.get? (k - 1).toNat ∧ selectBucket l k ≠ none := by
  unfold selectBucket pyIndex
  have hneg : ¬ (k - 1 < 0) := by omega
  have hin : 0 ≤ k - 1 ∧ k - 1 < (l.length : Int) := by omega
  have hlt : (k - 1).toNat < l.length := by omega
  simp only [hneg, if_false, hin, if_true]
  refine ⟨rfl, ?_⟩
  rw [List.get?_eq_getElem?, List.getElem?_eq_getElem hlt]
  simp

/-- C9 witness: with three enabled buckets, entering 2 selects the
second bucket in listing order. -/
theorem C9_witness :
    (1 ≤ (2 : Int) ∧ (2 : Int) ≤
      (["alpha".toList, "beta".toList, "gamma".toList] :
        List (List Char)).length) ∧
    (selectBucket ["alpha".toList, "beta".toList, "gamma".toList] 2 =
        (["alpha".toList, "beta".toList, "gamma".toList] :
          List (List Char)).get? ((2 : Int) - 1).toNat ∧
      selectBucket ["alpha".toList, "beta".toList, "gamma".toList] 2 ≠
        none) ∧
    selectBucket ["alpha".toList, "beta".toList, "gamma".toList] 2 =
      some ("beta".toList) :=
  ⟨by decide,
   C9_selection_one_based ["alpha".toList, "beta".toList, "gamma".toList] 2
     (by decide) (by decide),
   by decide⟩

/-- C10: confirmed. With a non-empty enabled list of length n, an
entered number k with 1 - n <= k <= 0 does not fail: the computed
index k - 1 is negative, Python shifts it by n, and the bucket at
0-based position n + k - 1 is selected; in particular k = 0 selects
the last bucket. -/
theorem C10_selection_negative (l : List (List Char)) (k : Int)
    (h0 : l ≠ []) (h1 : 1 - (l.length : Int) ≤ k) (h2 : k ≤ 0) :
    selectBucket l k = l.get? ((l.length : Int) + k - 1).toNat ∧
      selectBucket l k ≠ none := by
  unfold selectBucket pyIndex
  have hlen : l.length ≠ 0 := fun h => h0 (List.eq_nil_of_length_eq_zero h)
  have hneg : k - 1 < 0 := by omega
  have hin : 0 ≤ k - 1 + (l.length : Int) ∧
      k - 1 + (l.length : Int) < (l.length : Int) := by omega
  have hlt : (k - 1 + (l.length : Int)).toNat < l.length := by omega
  simp only [hneg, if_true, hin]
  have heq : (k - 1 + (l.length : Int)).toNat =
      ((l.length : Int) + k - 1).toNat := by omega
  rw [heq]
  refine ⟨rfl, ?_⟩
  have hlt2 : ((l.length : Int) + k - 1).toNat < l.length := by omega
  rw [List.get?_eq_getElem?, List.getElem?_eq_getElem hlt2]
  simp

/-- C10 witness: with three enabled buckets, entering 0 selects the
third (last) bucket instead of raising an error. -/
theorem C10_witness :
    ((["one".toList, "two".toList, "three".toList] :
        List (List Char)) ≠ [] ∧
      1 - ((["one".toList, "two".toList, "three".toList] :
        List (List Char)).length : Int) ≤ (0 : Int) ∧ (0 : Int) ≤ 0) ∧
    (selectBucket ["one".toList, "two".toList, "three".toList] 0 =
        (["one".toList, "two".toList, "three".toList] :
          List (List Char)).get?
          (((["one".toList, "two".toList, "three".toList] :
            List (List Char)).length : Int) + 0 - 1).toNat ∧
      selectBucket ["one".toList, "two".toList, "three".toList] 0 ≠
        none) ∧
    selectBucket ["one".toList, "two".toList, "three".toList] 0 =
      some ("three".toList) :=
  ⟨by decide,
   C10_selection_negative ["one".toList, "two".toList, "three".toList] 0
     (by decide) (by decide) (by decide),
   by decide⟩

/-! ## The numeric prompt loops (src lines 154-158, 162-166)

num_objects = input(...); while not num_objects.isdigit(): ...
num_objects = int(num_objects)     (and the same for start_index)

str.isdigit is true for a non-empty string all of whose characters
have the Unicode property Numeric_Type = Digit or Decimal.  That class
is strictly larger than the decimal digits int() accepts: it also
contains, e.g., the superscript digits.  The two classifications are
embedded exactly on the fragment relevant here: the ASCII digits 0-9
(both isdigit and int-convertible) and the Latin-1 superscripts
(one, two, three), which isdigit accepts but int() rejects. -/

/-- Model of the per-character test of str.isdigit on the embedded
fragment: ASCII decimal digits plus the superscript digits. -/
def pyCharIsDigit (c : Char) : Bool :=
  c.isDigit || c = '¹' || c = '²' || c = '³'

/-- Model of str.isdigit: non-empty and all characters digits. -/
def pyStrIsDigit (s : List Char) : Bool :=
  decide (s ≠ []) && s.all pyCharIsDigit

/-- Model of int() on the strings that can reach it through the
prompt loops: it succeeds exactly on non-empty strings of decimal
(ASCII) digits, returning their value; a digit-property character that
is not a decimal digit makes it raise ValueError (none). -/
def pyIntNat (s : List Char) : Option Nat :=
  if s ≠ [] ∧ (∀ c ∈ s, c.isDigit = true) then some (digitsVal s) else none

/-- Embedding of one re-prompt loop over the stream of entered lines:
the loop exits with the first line whose isdigit test is true. -/
def promptLoopResult (inputs : List (List Char)) : Option (List Char) :=
  inputs.find? pyStrIsDigit

/-- C8: corrected. The loop exits exactly when the entered line is
non-empty and every character has the Unicode digit property, which is
weaker than being a decimal-digit string; an accepted line consisting
only of the decimal digits 0-9 is then converted by int() without
raising, but an accepted line containing a digit-property character
that is not a decimal digit (such as the superscript two) makes int()
raise ValueError and crash the program instead of re-prompting.
Amended statement: every line accepted by either loop is non-empty
with all characters in the digit class, and whenever the accepted line
consists only of decimal digits, int() yields its non-negative value
without raising. -/
theorem C8_prompt_loop (inputs : List (List Char)) (s : List Char)
    (h : promptLoopResult inputs = some s) :
    (s ≠ [] ∧ ∀ c ∈ s, pyCharIsDigit c = true) ∧
    ((∀ c ∈ s, c.isDigit = true) → pyIntNat s = some (digitsVal s)) := by
  have hp : pyStrIsDigit s = true := List.find?_some h
  unfold pyStrIsDigit at hp
  rw [Bool.and_eq_true] at hp
  obtain ⟨hne, hall⟩ := hp
  have hne' : s ≠ [] := of_decide_eq_true hne
  refine ⟨⟨hne', ?_⟩, ?_⟩
  · intro c hc
    exact List.all_eq_true.mp hall c hc
  · intro hdec
    unfold pyIntNat
    rw [if_pos ⟨hne', hdec⟩]

/-- C8 witness: on the stream "abc", "42" the loop skips the first
line, exits with "42", and int() converts it to the value 42. -/
theorem C8_witness :
    (promptLoopResult [['a', 'b', 'c'], ['4', '2']] = some ['4', '2']) ∧
    ((['4', '2'] ≠ ([] : List Char) ∧
        ∀ c ∈ (['4', '2'] : List Char), pyCharIsDigit c = true) ∧
      ((∀ c ∈ (['4', '2'] : List Char), c.isDigit = true) →
        pyIntNat ['4', '2'] = some (digitsVal ['4', '2']))) :=
  ⟨by decide,
   C8_prompt_loop [['a', 'b', 'c'], ['4', '2']] ['4', '2'] (by decide)⟩

/-- C8 counterexample: the one-character line consisting of the
superscript two passes the isdigit test, so the re-prompt loop exits
and accepts it, yet int() raises on it - the accepted input is not
converted to a non-negative integer without error (and, the loop also
exits on a line that is not a plain 0-9 digit string). -/
theorem C8_counterexample :
    pyStrIsDigit ['²'] = true ∧ pyIntNat ['²'] = none ∧
      ('²' : Char).isDigit = false := by
  decide
